import Mathlib

set_option maxHeartbeats 1000000

/- Verification of the retirement projection engine
   (retirement_simulator.py: class retirementSimulator with Event/Kid life
   events; retirement_calculator.py: the module-level script variant).
   Python float arithmetic is modelled by exact rationals; `None` fields of a
   ledger row by `Option`; `math.inf` bracket bounds by `Option` upper bounds
   (`none` = unbounded). -/

/-- A tax bracket `(lower, upper) -> rate`; `upper = none` models
`float('inf')` in the Python bracket dictionaries. -/
structure TaxBracket (α : Type) where
  lower : α
  upper : Option α
  rate : α
deriving DecidableEq

/-- Contribution of a single bracket in the evaluator loop:
`if amnt > bracket[0]: tax += rate*(min(amnt, bracket[1]) - bracket[0])`,
where `min(amnt, inf) = amnt`. -/
def bracketTerm {α : Type} [LinearOrderedField α] (amnt : α) (b : TaxBracket α) : α :=
  if b.lower < amnt then
    b.rate * ((match b.upper with
      | some u => min amnt u
      | none => amnt) - b.lower)
  else 0

/-- The progressive-marginal-rate loop shared by all tax evaluators of both
source files: `tax = 0; for bracket in brackets: ... ; return tax`. -/
def taxFromBrackets {α : Type} [LinearOrderedField α] (brs : List (TaxBracket α)) (amnt : α) : α :=
  brs.foldl (fun tax b => tax + bracketTerm amnt b) 0

/-- 2019 long-term capital gains table used in `calculate_longterm_cap_gains_tax`
(retirement_simulator.py line 248) and `calculate_longterm_capital_gains`
(retirement_calculator.py line 76): `{(0,39375): 0.1, (39376, 434550): 0.15,
(434551, inf): 0.37}`. -/
def ltBrackets : List (TaxBracket ℚ) :=
  [⟨0, some 39375, 0.1⟩, ⟨39376, some 434550, 0.15⟩, ⟨434551, none, 0.37⟩]

/-- 2019 single-filer federal table used in `calculate_federal_tax` in both
files: `{(0,9700): 0.1, (9700,39475): 0.12, (39475,84200): 0.22,
(84200,160725): 0.24, (160725,204100): 0.32, (204100,510300): 0.35,
(510300,inf): 0.37}`. -/
def fedBrackets : List (TaxBracket ℚ) :=
  [⟨0, some 9700, 0.1⟩, ⟨9700, some 39475, 0.12⟩, ⟨39475, some 84200, 0.22⟩,
   ⟨84200, some 160725, 0.24⟩, ⟨160725, some 204100, 0.32⟩,
   ⟨204100, some 510300, 0.35⟩, ⟨510300, none, 0.37⟩]

/-- Inflation scaling of one bracket:
`(bracket[0]*c, bracket[1]*c)` with `c = (self.inflation+1)**yrs_since_base`
(`inf * c = inf` for the unbounded top bracket). -/
def scaleBracket (c : ℚ) (b : TaxBracket ℚ) : TaxBracket ℚ :=
  ⟨b.lower * c, b.upper.map (fun u => u * c), b.rate⟩

/-- The `adj_brackets` dictionary comprehension of the simulator. -/
def adjBrackets (brs : List (TaxBracket ℚ)) (c : ℚ) : List (TaxBracket ℚ) :=
  brs.map (scaleBracket c)

/-- `retirementSimulator.calculate_longterm_cap_gains_tax(self, amnt_to_sell,
yrs_since_base)`; depends on `self.inflation`. `yrs_since_base` is always an
integer at the call sites (`i - self.start_working_age`). -/
def calculate_longterm_cap_gains_tax (inflation : ℚ) (yrs_since_base : ℤ) (amnt_to_sell : ℚ) : ℚ :=
  taxFromBrackets (adjBrackets ltBrackets ((inflation + 1) ^ yrs_since_base)) amnt_to_sell

/-- `retirementSimulator.calculate_federal_tax(self, yrs_since_base)`; the
amount taxed is `self.wage`, the argument is the bracket-scaling exponent. -/
def calculate_federal_tax (inflation wage : ℚ) (yrs_since_base : ℤ) : ℚ :=
  taxFromBrackets (adjBrackets fedBrackets ((inflation + 1) ^ yrs_since_base)) wage

/-- `retirementSimulator.calculate_shortterm_cap_gains_tax(self, amnt_to_sell)`:
`return self.calculate_federal_tax(amnt_to_sell)`. The amount to sell is passed
positionally into the `yrs_since_base` parameter of the federal evaluator, so
it is typed like that parameter here. -/
def calculate_shortterm_cap_gains_tax (inflation wage : ℚ) (amnt_to_sell : ℤ) : ℚ :=
  calculate_federal_tax inflation wage amnt_to_sell

/-- `retirementSimulator.calculate_state_tax(self)`: `self.wage*0.10`. -/
def calculate_state_tax (wage : ℚ) : ℚ :=
  wage * 0.10

/-- `calculate_longterm_capital_gains(amnt_to_sell)` of retirement_calculator.py
(same table, never inflation-scaled). -/
def calc_calculate_longterm_capital_gains (amnt_to_sell : ℚ) : ℚ :=
  taxFromBrackets ltBrackets amnt_to_sell

/-- `calculate_federal_tax(wage)` of retirement_calculator.py: here the
argument is the amount taxed. -/
def calc_calculate_federal_tax (wage : ℚ) : ℚ :=
  taxFromBrackets fedBrackets wage

/-- `calculate_shortterm_capital_gains(amnt_to_sell)` of
retirement_calculator.py: `return calculate_federal_tax(amnt_to_sell)`. -/
def calc_calculate_shortterm_capital_gains (amnt_to_sell : ℚ) : ℚ :=
  calc_calculate_federal_tax amnt_to_sell

/-- `calculate_state_tax(wage)` of retirement_calculator.py. -/
def calc_calculate_state_tax (wage : ℚ) : ℚ :=
  wage * 0.10

/-- Life events: the plain `Event` (fixed net flow, active window
`start_age <= age < end_age`, `end_age = math.inf` modelled as `none`) and
`Kid` (end age always `inf`, mutable `kid_age` counter, `college` flag). -/
inductive LifeEvent where
  | base (startAge : ℚ) (endAge : Option ℚ) (active : Bool) (netFlow : ℚ)
  | kid (startAge : ℚ) (active : Bool) (netFlow : ℚ) (kidAge : ℕ) (college : Bool)
deriving DecidableEq

/-- `Event.__init__(start_age, net_flow=0, end_age=inf, duration=None)`. -/
def mkEvent (startAge : ℚ) (netFlow : ℚ := 0) (endAge : Option ℚ := none)
    (duration : Option ℚ := none) : LifeEvent :=
  LifeEvent.base startAge
    (match duration with
      | some d => some (startAge + d)
      | none => endAge)
    false netFlow

/-- `Kid.__init__(start_age, college=True)`. -/
def mkKid (startAge : ℚ) (college : Bool := true) : LifeEvent :=
  LifeEvent.kid startAge false 0 0 college

def LifeEvent.active : LifeEvent → Bool
  | .base _ _ a _ => a
  | .kid _ a _ _ _ => a

def LifeEvent.netFlow : LifeEvent → ℚ
  | .base _ _ _ nf => nf
  | .kid _ _ nf _ _ => nf

/-- `Event.update` / `Kid.update`, reading the simulation object's current
`age`, `child_costs` and `college_price`. A `Kid` recomputes its net flow from
its cost tier and increments `kid_age`, but only while active. -/
def LifeEvent.update (age childCosts collegePrice : ℚ) : LifeEvent → LifeEvent
  | .base s e _ nf =>
      .base s e
        (decide (s ≤ age) && (match e with
          | some e2 => decide (age < e2)
          | none => true)) nf
  | .kid s _ nf ka col =>
      if s ≤ age then
        .kid s true
          (if ka < 18 then -childCosts
           else if ka < 22 && col then -collegePrice
           else 0)
          (ka + 1) col
      else
        .kid s false nf ka col

/-- `retirementSimulator.total_events_net_flow`. -/
def totalEventsNetFlow (evs : List LifeEvent) : ℚ :=
  evs.foldl (fun t e => if e.active then t + e.netFlow else t) 0

/-- The constructor parameters of `retirementSimulator.__init__` (the `_save`
copies of the Python object, which are never mutated). -/
structure Params where
  startingWealth : ℚ
  rateOfReturn : ℚ
  costOfLiving : ℚ
  inflation : ℚ
  wage : ℚ
  yearlyRaise : ℚ
  withdrawlRate : ℚ
  startWorkingAge : ℤ
  targetRetirementAge : ℤ
  workTillAtLeast : ℤ
  deathAge : ℤ
  childCosts : ℚ
  collegePrice : ℚ
  events : List LifeEvent
deriving DecidableEq

/-- The fields of the simulator object mutated by `run_simulation`. -/
structure SimState where
  totalWealth : ℚ
  costOfLiving : ℚ
  childCosts : ℚ
  collegePrice : ℚ
  wage : ℚ
  age : ℤ
  events : List LifeEvent
deriving DecidableEq

/-- State of a fresh `retirementSimulator` object: the constructor deep-copies
the event list, so the state owns its events by value. -/
def initState (p : Params) : SimState :=
  ⟨p.startingWealth, p.costOfLiving, p.childCosts, p.collegePrice, p.wage,
   p.startWorkingAge, p.events⟩

/-- One row of `lifetime` / `summaryDf`; Python `None` is `Option.none`. -/
structure LedgerRow where
  age : ℤ
  totalWealth : ℚ
  wage : Option ℚ
  withdrawlPost : Option ℚ
  costOfLiving : ℚ
  portfolioReturns : ℚ
  surplus : Option ℚ
  surplusPresent : Option ℚ
  theoreticalWithdrawlPost : Option ℚ
  theoreticalSurplus : Option ℚ
  theoreticalSurplusPresent : Option ℚ
deriving DecidableEq

/-- Events after `self.update_events()` at the top of a loop iteration. -/
def eventsAfterUpdate (s : SimState) : List LifeEvent :=
  s.events.map (LifeEvent.update (s.age : ℚ) s.childCosts s.collegePrice)

/-- Wealth after `self.total_wealth += self.total_events_net_flow()`. -/
def wealthAfterFlows (s : SimState) : ℚ :=
  s.totalWealth + totalEventsNetFlow (eventsAfterUpdate s)

/-- One iteration of the working-years loop of `run_simulation`
(retirement_simulator.py lines 293-329); `i` is the loop variable. -/
def workingStep (p : Params) (i : ℤ) (s : SimState) : SimState × LedgerRow :=
  let events := eventsAfterUpdate s
  let w1 := wealthAfterFlows s
  let withdrawl_pre := w1 * p.withdrawlRate
  let withdrawl_post := withdrawl_pre -
    calculate_longterm_cap_gains_tax p.inflation (i - p.startWorkingAge) withdrawl_pre
  let row : LedgerRow :=
    { age := i
      totalWealth := w1
      wage := some s.wage
      withdrawlPost := none
      costOfLiving := s.costOfLiving
      portfolioReturns := w1 * p.rateOfReturn
      surplus := none
      surplusPresent := none
      theoreticalWithdrawlPost := some withdrawl_post
      theoreticalSurplus := some (withdrawl_post - s.costOfLiving)
      theoreticalSurplusPresent :=
        some ((withdrawl_post - s.costOfLiving) / (1 + p.inflation) ^ (i - p.startWorkingAge)) }
  let state_tax := calculate_state_tax s.wage
  let federal_tax := calculate_federal_tax p.inflation s.wage (i - p.startWorkingAge)
  ({ totalWealth := w1 + (s.wage - state_tax - federal_tax - s.costOfLiving) + w1 * p.rateOfReturn
     costOfLiving := s.costOfLiving + s.costOfLiving * p.inflation
     childCosts := s.childCosts + s.childCosts * p.inflation
     collegePrice := s.collegePrice + s.collegePrice * p.inflation
     wage := s.wage * (p.yearlyRaise + 1)
     age := s.age + 1
     events := events }, row)

/-- One iteration of the retirement-years loop of `run_simulation`
(retirement_simulator.py lines 336-366). -/
def retirementStep (p : Params) (i : ℤ) (s : SimState) : SimState × LedgerRow :=
  let events := eventsAfterUpdate s
  let w1 := wealthAfterFlows s
  let withdrawl_pre := w1 * p.withdrawlRate
  let withdrawl_post := withdrawl_pre -
    calculate_longterm_cap_gains_tax p.inflation (i - p.startWorkingAge) withdrawl_pre
  let row : LedgerRow :=
    { age := i
      totalWealth := w1
      wage := none
      withdrawlPost := some withdrawl_post
      costOfLiving := s.costOfLiving
      portfolioReturns := w1 * p.rateOfReturn
      surplus := some (withdrawl_post - s.costOfLiving)
      surplusPresent :=
        some ((withdrawl_post - s.costOfLiving) / (1 + p.inflation) ^ (i - p.startWorkingAge))
      theoreticalWithdrawlPost := none
      theoreticalSurplus := none
      theoreticalSurplusPresent := none }
  ({ totalWealth := w1 + w1 * p.rateOfReturn - withdrawl_pre
     costOfLiving := s.costOfLiving + s.costOfLiving * p.inflation
     childCosts := s.childCosts + s.childCosts * p.inflation
     collegePrice := s.collegePrice + s.collegePrice * p.inflation
     wage := s.wage
     age := s.age + 1
     events := events }, row)

/-- Python `range(a, b)` over integers. -/
def intRange (a b : ℤ) : List ℤ :=
  (List.range (b - a).toNat).map (fun (k : ℕ) => a + (k : ℤ))

/-- Runs a loop body over the loop range, threading the mutable state and
collecting the rows appended to `lifetime`. -/
def runSteps {σ ρ : Type} (step : ℤ → σ → σ × ρ) : List ℤ → σ → σ × List ρ
  | [], s => (s, [])
  | i :: is, s =>
    let sr := step i s
    let rest := runSteps step is sr.1
    (rest.1, sr.2 :: rest.2)

/-- `retirementSimulator.run_simulation`: the working loop
`for i in range(self.start_working_age, self.target_retirement_age)` followed
by the retirement loop
`for i in range(self.target_retirement_age, self.death_age+1)`. -/
def run_simulation (p : Params) (s : SimState) : SimState × List LedgerRow :=
  let a := runSteps (workingStep p) (intRange p.startWorkingAge p.targetRetirementAge) s
  let b := runSteps (retirementStep p) (intRange p.targetRetirementAge (p.deathAge + 1)) a.1
  (b.1, a.2 ++ b.2)

/-- The `summaryDf` ledger produced by constructing a simulator from `p` and
calling `run_simulation`. -/
def simLedger (p : Params) : List LedgerRow :=
  (run_simulation p (initState p)).2

/-- In pandas, comparing a column containing `None`/`NaN` with a number yields
`False` on those entries; this models one entry of
`df['Withdrawl (post tax)'] > df['Cost of Living']`. -/
def optGtB (o : Option ℚ) (c : ℚ) : Bool :=
  match o with
  | some v => decide (c < v)
  | none => false

/-- One entry of the crossing vector
`vec = (df['Withdrawl (post tax)'] > df['Cost of Living']) |
(df['Theoretical Withdrawl (post tax)'] > df['Cost of Living'])`. -/
def crossingB (r : LedgerRow) : Bool :=
  optGtB r.withdrawlPost r.costOfLiving || optGtB r.theoreticalWithdrawlPost r.costOfLiving

/-- Pandas boolean indexing `df[mask]`: keep the rows at the positions where
the mask is `True` (the mask and the frame must have equal length). -/
def maskSelect {ρ : Type} (mask : List Bool) (rows : List ρ) : List ρ :=
  (mask.zip rows).filterMap (fun br => if br.1 then some br.2 else none)

/-- Python 3 `round(x, 2)`: round half to even at the second decimal. -/
def roundHalfEven (q : ℚ) : ℤ :=
  let f := ⌊q⌋
  let r := q - f
  if r < 1/2 then f
  else if 1/2 < r then f + 1
  else if Even f then f else f + 1

/-- `round(x, 2)` on an exact rational. -/
def round2 (x : ℚ) : ℚ :=
  (roundHalfEven (100 * x) : ℚ) / 100

/-- Outcome of `get_earliest_retirement` (which reports by printing):
`unreachable` is the "You will not ever be able to meet your retirement
goals!" branch; `insufficient` the "you will run out of money" branch;
`sustainable` the branch reporting the start/end retirement wealth, their
delta and whether wealth grew. `error` marks the states in which the Python
code would raise (empty `iloc` selection or unalignable boolean mask). -/
inductive Verdict where
  | unreachable
  | insufficient (bestAge runsOutAge : ℤ)
  | sustainable (bestAge : ℤ) (startWealth endWealth delta : ℚ) (growing : Bool)
  | error
deriving DecidableEq

/-- `best_age` after the `work_till_at_least` floor: Python
`if self.work_till_at_least_save and best_age < self.work_till_at_least_save`
(a zero floor is falsy and skipped). -/
def bestAgeFrom (p : Params) (firstRow : LedgerRow) : ℤ :=
  if p.workTillAtLeast ≠ 0 ∧ firstRow.age < p.workTillAtLeast then p.workTillAtLeast
  else firstRow.age

/-- The tail of `get_earliest_retirement` once a crossing row exists in the
base ledger: build the validation simulation with
`target_retirement_age = best`, take `runs_out` from the *new* crossing mask
(`new_vec`) but the start/end retirement wealth from the new ledger indexed by
the *base* mask `vec` (as lines 404-411 of the source do). `error` marks the
states where the Python code would raise: an empty `iloc` selection or a
boolean mask whose length does not match the indexed frame. -/
def searchFinish (p : Params) (vec : List Bool) (best : ℤ) : Verdict :=
  let newRows := simLedger { p with targetRetirementAge := best }
  if newRows.length = vec.length then
    match (maskSelect (newRows.map crossingB) newRows).getLast? with
    | none => Verdict.error
    | some lastNew =>
      match (maskSelect vec newRows).head?, (maskSelect vec newRows).getLast? with
      | some fr2, some lr2 =>
        if lastNew.age < p.deathAge then
          Verdict.insufficient best lastNew.age
        else
          Verdict.sustainable best (round2 fr2.totalWealth) (round2 lr2.totalWealth)
            (round2 (round2 lr2.totalWealth - round2 fr2.totalWealth))
            (decide (round2 fr2.totalWealth < round2 lr2.totalWealth))
      | _, _ => Verdict.error
  else Verdict.error

/-- `retirementSimulator.get_earliest_retirement` (lines 377-435), called after
`run_simulation` as in the script entry points. The validation simulation is
rebuilt from the `_save` parameters (including a fresh deep copy of
`events_save`) with `target_retirement_age = best_age`. -/
def get_earliest_retirement (p : Params) : Verdict :=
  match (simLedger p).find? crossingB with
  | none => Verdict.unreachable
  | some firstRow =>
    searchFinish p ((simLedger p).map crossingB) (bestAgeFrom p firstRow)

/- Embedding of retirement_calculator.py: the module-level working and
retirement loops over global state (total_wealth, cost_of_living, wage),
generalized over the module-level constants. -/

/-- The module-level constants of retirement_calculator.py. -/
structure ScriptParams where
  totalWealth : ℚ
  rateOfReturn : ℚ
  costOfLiving : ℚ
  inflation : ℚ
  wage : ℚ
  yearlyRaise : ℚ
  withdrawlRate : ℚ
  startWorkingAge : ℤ
  retirementAge : ℤ
  deathAge : ℤ
deriving DecidableEq

/-- The global variables mutated by the calculator script's loops. -/
structure CalcState where
  totalWealth : ℚ
  costOfLiving : ℚ
  wage : ℚ
deriving DecidableEq

/-- One row of the calculator script's `lifetime` list (its working rows have
no withdrawal fields; its retirement rows record the pre-tax withdrawal too
and have no wage). -/
structure CalcRow where
  age : ℤ
  totalWealth : ℚ
  wage : Option ℚ
  costOfLiving : ℚ
  portfolioReturns : ℚ
  withdrawlPre : Option ℚ
  withdrawlPost : Option ℚ
  surplus : Option ℚ
deriving DecidableEq

/-- One iteration of `for i in range(start_working_age, retirement_age)`
(retirement_calculator.py lines 108-121). -/
def calcWorkingStep (p : ScriptParams) (i : ℤ) (s : CalcState) : CalcState × CalcRow :=
  let row : CalcRow :=
    { age := i
      totalWealth := s.totalWealth
      wage := some s.wage
      costOfLiving := s.costOfLiving
      portfolioReturns := s.totalWealth * p.rateOfReturn
      withdrawlPre := none
      withdrawlPost := none
      surplus := none }
  ({ totalWealth := s.totalWealth +
       (s.wage - calc_calculate_state_tax s.wage - calc_calculate_federal_tax s.wage -
         s.costOfLiving) + s.totalWealth * p.rateOfReturn
     costOfLiving := s.costOfLiving + s.costOfLiving * p.inflation
     wage := s.wage * (p.yearlyRaise + 1) }, row)

/-- One iteration of `for i in range(retirement_age, death_age)`
(retirement_calculator.py lines 127-141); note the upper bound is
`death_age`, not `death_age + 1`. -/
def calcRetirementStep (p : ScriptParams) (i : ℤ) (s : CalcState) : CalcState × CalcRow :=
  let withdrawl_pre := s.totalWealth * p.withdrawlRate
  let withdrawl_post := withdrawl_pre - calc_calculate_longterm_capital_gains withdrawl_pre
  let row : CalcRow :=
    { age := i
      totalWealth := s.totalWealth
      wage := none
      costOfLiving := s.costOfLiving
      portfolioReturns := s.totalWealth * p.rateOfReturn
      withdrawlPre := some withdrawl_pre
      withdrawlPost := some withdrawl_post
      surplus := some (withdrawl_post - s.costOfLiving) }
  ({ totalWealth := s.totalWealth + s.totalWealth * p.rateOfReturn - withdrawl_pre
     costOfLiving := s.costOfLiving + s.costOfLiving * p.inflation
     wage := s.wage }, row)

/-- The `lifetime` list built by the two module-level loops of
retirement_calculator.py. -/
def calcLifetime (p : ScriptParams) : List CalcRow :=
  let s0 : CalcState := ⟨p.totalWealth, p.costOfLiving, p.wage⟩
  let a := runSteps (calcWorkingStep p) (intRange p.startWorkingAge p.retirementAge) s0
  let b := runSteps (calcRetirementStep p) (intRange p.retirementAge p.deathAge) a.1
  a.2 ++ b.2

/- Object/aliasing model for the constructor's deep copies: the only mutable
objects shared between simulator instances could be the event objects, so the
store holds event lists; `retirementSimulator.__init__` deep-copies the
incoming list twice (`self.events`, `self.events_save`), i.e. allocates two
fresh store entries. -/

/-- Heap of event-list objects. -/
abbrev EventStore : Type := List (List LifeEvent)

/-- A simulator object: its (immutable) constructor parameters plus references
to its own `events` and `events_save` copies in the store. -/
structure SimObj where
  params : Params
  eventsRef : ℕ
  eventsSaveRef : ℕ
deriving DecidableEq

/-- `retirementSimulator(...)`: allocate `self.events = copy.deepcopy(events)`
and `self.events_save = copy.deepcopy(events)` as fresh store entries. -/
def newSimulator (st : EventStore) (p : Params) : EventStore × SimObj :=
  (st ++ [p.events, p.events], ⟨p, st.length, st.length + 1⟩)

/-- `obj.run_simulation()`: read the object's own event list from the store,
run, and write back the mutated event list at the same reference. -/
def runObj (st : EventStore) (o : SimObj) : EventStore × List LedgerRow :=
  let evs := st.getD o.eventsRef []
  let res := run_simulation o.params { initState o.params with events := evs }
  (st.set o.eventsRef res.1.events, res.2)

/- Generic lemmas about the loop runner and integer ranges. -/

theorem runSteps_length {σ ρ : Type} (step : ℤ → σ → σ × ρ) (l : List ℤ) (s : σ) :
    ((runSteps step l s).2).length = l.length := by
  induction l generalizing s with
  | nil => rfl
  | cons i is ih => simp [runSteps, ih]

theorem runSteps_get {σ ρ : Type} (step : ℤ → σ → σ × ρ) (f : ρ → ℤ)
    (hstep : ∀ i s, f ((step i s).2) = i) (l : List ℤ) :
    ∀ (s : σ) (k : ℕ) (h : k < ((runSteps step l s).2).length) (h2 : k < l.length),
      f (((runSteps step l s).2).get ⟨k, h⟩) = l.get ⟨k, h2⟩ := by
  induction l with
  | nil => intro s k h h2; simp at h2
  | cons i is ih =>
    intro s k h h2
    cases k with
    | zero => simpa [runSteps] using hstep i s
    | succ k =>
      have h3 : k < ((runSteps step is (step i s).1).2).length := by
        simpa [runSteps_length] using h2
      simpa [runSteps] using ih (step i s).1 k h3 (by simpa using h2)

theorem runSteps_mem {σ ρ : Type} (step : ℤ → σ → σ × ρ) (l : List ℤ) :
    ∀ (s : σ) (r : ρ), r ∈ (runSteps step l s).2 → ∃ i ∈ l, ∃ s2, r = (step i s2).2 := by
  induction l with
  | nil => intro s r h; simp [runSteps] at h
  | cons i is ih =>
    intro s r h
    simp only [runSteps, List.mem_cons] at h
    rcases h with h | h
    · exact ⟨i, by simp, s, h⟩
    · obtain ⟨j, hj, s2, hr⟩ := ih (step i s).1 r h
      exact ⟨j, by simp [hj], s2, hr⟩

theorem intRange_length (a b : ℤ) : (intRange a b).length = (b - a).toNat := by
  rw [intRange, List.length_map, List.length_range]

theorem intRange_get (a b : ℤ) (k : ℕ) (h : k < (intRange a b).length) :
    (intRange a b).get ⟨k, h⟩ = a + k := by
  simp [intRange, List.get_eq_getElem, List.getElem_map, List.getElem_range]

theorem mem_intRange {a b i : ℤ} (h : i ∈ intRange a b) : a ≤ i ∧ i < b := by
  rw [intRange, List.mem_map] at h
  obtain ⟨k, hk, rfl⟩ := h
  rw [List.mem_range] at hk
  omega

/- Lemmas about the bracket fold. -/

theorem foldl_add_eq_sum {α β : Type} [AddCommMonoid β] (f : α → β) (l : List α) (init : β) :
    l.foldl (fun t b => t + f b) init = init + (l.map f).sum := by
  induction l generalizing init with
  | nil => simp
  | cons b bs ih => simp [ih, add_assoc]

theorem taxFromBrackets_eq_sum {α : Type} [LinearOrderedField α]
    (brs : List (TaxBracket α)) (amnt : α) :
    taxFromBrackets brs amnt = (brs.map (bracketTerm amnt)).sum := by
  simpa [taxFromBrackets] using foldl_add_eq_sum (bracketTerm amnt) brs 0

theorem taxFromBrackets_cons {α : Type} [LinearOrderedField α]
    (b : TaxBracket α) (brs : List (TaxBracket α)) (amnt : α) :
    taxFromBrackets (b :: brs) amnt = bracketTerm amnt b + taxFromBrackets brs amnt := by
  simp [taxFromBrackets_eq_sum]

/-- C1: the short-term capital gains evaluator returns exactly the result of
the federal (ordinary-income) evaluator applied to the same argument, in both
source files; in the calculator this means the amount is taxed through the
ordinary-income bracket table itself. (In the simulator variant the delegated
argument lands in the `yrs_since_base` parameter of the federal evaluator.) -/
theorem c1_shortterm_delegates_to_federal :
    (∀ (inflation wage : ℚ) (amnt : ℤ),
      calculate_shortterm_cap_gains_tax inflation wage amnt =
        calculate_federal_tax inflation wage amnt) ∧
    (∀ amnt : ℚ,
      calc_calculate_shortterm_capital_gains amnt = calc_calculate_federal_tax amnt) ∧
    (∀ amnt : ℚ,
      calc_calculate_shortterm_capital_gains amnt = taxFromBrackets fedBrackets amnt) :=
  ⟨fun _ _ _ => rfl, fun _ => rfl, fun _ => rfl⟩

/- C8 helper: a bracket whose lower bound is non-negative contributes nothing
for a non-positive amount. -/

theorem bracketTerm_nonpos {α : Type} [LinearOrderedField α] (b : TaxBracket α) (amnt : α)
    (hb : 0 ≤ b.lower) (ha : amnt ≤ 0) : bracketTerm amnt b = 0 := by
  have : ¬ b.lower < amnt := by linarith
  simp [bracketTerm, this]

theorem taxFromBrackets_nonpos {α : Type} [LinearOrderedField α]
    (brs : List (TaxBracket α)) (amnt : α)
    (hb : ∀ b ∈ brs, 0 ≤ b.lower) (ha : amnt ≤ 0) : taxFromBrackets brs amnt = 0 := by
  rw [taxFromBrackets_eq_sum]
  apply List.sum_eq_zero
  intro x hx
  simp only [List.mem_map] at hx
  obtain ⟨b, hbmem, rfl⟩ := hx
  exact bracketTerm_nonpos b amnt (hb b hbmem) ha

theorem adjBrackets_lower_nonneg {brs : List (TaxBracket ℚ)} {c : ℚ}
    (h : ∀ b ∈ brs, 0 ≤ b.lower) (hc : 0 ≤ c) :
    ∀ b ∈ adjBrackets brs c, 0 ≤ b.lower := by
  intro b hb
  simp only [adjBrackets, List.mem_map] at hb
  obtain ⟨b0, hb0, rfl⟩ := hb
  exact mul_nonneg (h b0 hb0) hc

theorem ltBrackets_lower_nonneg : ∀ b ∈ ltBrackets, 0 ≤ b.lower := by decide

theorem fedBrackets_lower_nonneg : ∀ b ∈ fedBrackets, 0 ≤ b.lower := by decide

/-- C8: every tax evaluator returns exactly 0 on a non-positive amount: the
generic bracket loop (for any table with non-negative lower bounds), the
inflation-scaled simulator evaluators (for any inflation rate `>= -1`, so that
the scale factor is non-negative) and the unscaled calculator evaluators. -/
theorem c8_nonpositive_amount_zero_tax :
    (∀ (brs : List (TaxBracket ℚ)), (∀ b ∈ brs, 0 ≤ b.lower) →
      ∀ amnt : ℚ, amnt ≤ 0 → taxFromBrackets brs amnt = 0) ∧
    (∀ (inflation : ℚ), -1 ≤ inflation → ∀ (yrs : ℤ) (amnt : ℚ), amnt ≤ 0 →
      calculate_longterm_cap_gains_tax inflation yrs amnt = 0) ∧
    (∀ (inflation wage : ℚ), -1 ≤ inflation → wage ≤ 0 → ∀ yrs : ℤ,
      calculate_federal_tax inflation wage yrs = 0) ∧
    (∀ (inflation wage : ℚ), -1 ≤ inflation → wage ≤ 0 → ∀ amnt : ℤ,
      calculate_shortterm_cap_gains_tax inflation wage amnt = 0) ∧
    (∀ amnt : ℚ, amnt ≤ 0 → calc_calculate_longterm_capital_gains amnt = 0) ∧
    (∀ wage : ℚ, wage ≤ 0 → calc_calculate_federal_tax wage = 0) ∧
    (∀ amnt : ℚ, amnt ≤ 0 → calc_calculate_shortterm_capital_gains amnt = 0) := by
  have hscale : ∀ inflation : ℚ, -1 ≤ inflation → ∀ yrs : ℤ,
      (0:ℚ) ≤ (inflation + 1) ^ yrs := by
    intro inflation h yrs
    exact zpow_nonneg (by linarith) yrs
  refine ⟨?_, ?_, ?_, ?_, ?_, ?_, ?_⟩
  · intro brs hb amnt ha
    exact taxFromBrackets_nonpos brs amnt hb ha
  · intro inflation h yrs amnt ha
    exact taxFromBrackets_nonpos _ amnt
      (adjBrackets_lower_nonneg ltBrackets_lower_nonneg (hscale inflation h yrs)) ha
  · intro inflation wage h hw yrs
    exact taxFromBrackets_nonpos _ wage
      (adjBrackets_lower_nonneg fedBrackets_lower_nonneg (hscale inflation h yrs)) hw
  · intro inflation wage h hw amnt
    exact taxFromBrackets_nonpos _ wage
      (adjBrackets_lower_nonneg fedBrackets_lower_nonneg (hscale inflation h amnt)) hw
  · intro amnt ha
    exact taxFromBrackets_nonpos _ amnt ltBrackets_lower_nonneg ha
  · intro wage hw
    exact taxFromBrackets_nonpos _ wage fedBrackets_lower_nonneg hw
  · intro amnt ha
    exact taxFromBrackets_nonpos _ amnt fedBrackets_lower_nonneg ha

/-- Witness for C8 at concrete inputs. -/
theorem c8_witness :
    ((-5 : ℚ) ≤ 0 ∧ (-1 : ℚ) ≤ 0 ∧ calculate_longterm_cap_gains_tax 0 3 (-5) = 0) ∧
    ((0 : ℚ) ≤ 0 ∧ calc_calculate_federal_tax 0 = 0) :=
  ⟨⟨by norm_num, by norm_num,
      c8_nonpositive_amount_zero_tax.2.1 0 (by norm_num) 3 (-5) (by norm_num)⟩,
   ⟨le_refl 0, c8_nonpositive_amount_zero_tax.2.2.2.2.2.1 0 (le_refl 0)⟩⟩


/-- C5: the accumulation step updates post-event-flow wealth by exactly
`wage - stateTax - federalTax - costOfLiving + wealth*rateOfReturn` with the
flat state tax `wage * (1/10)`, then multiplies cost of living and the
auxiliary costs by `(1+inflation)` and the wage by `(1+yearlyRaise)`; the
decumulation step inflates the costs and updates post-event-flow wealth by
exactly `wealth*rateOfReturn - withdrawalPre` where
`withdrawalPre = wealth*withdrawlRate` is taken from the pre-update wealth. -/
theorem c5_step_update_formulas (p : Params) (i : ℤ) (s : SimState) :
    ((workingStep p i s).1.totalWealth =
        wealthAfterFlows s +
          (s.wage - s.wage * (1/10) -
            calculate_federal_tax p.inflation s.wage (i - p.startWorkingAge) -
            s.costOfLiving) + wealthAfterFlows s * p.rateOfReturn ∧
      (workingStep p i s).1.costOfLiving = s.costOfLiving * (1 + p.inflation) ∧
      (workingStep p i s).1.childCosts = s.childCosts * (1 + p.inflation) ∧
      (workingStep p i s).1.collegePrice = s.collegePrice * (1 + p.inflation) ∧
      (workingStep p i s).1.wage = s.wage * (1 + p.yearlyRaise)) ∧
    ((retirementStep p i s).1.totalWealth =
        wealthAfterFlows s +
          (wealthAfterFlows s * p.rateOfReturn - wealthAfterFlows s * p.withdrawlRate) ∧
      (retirementStep p i s).1.costOfLiving = s.costOfLiving * (1 + p.inflation) ∧
      (retirementStep p i s).1.childCosts = s.childCosts * (1 + p.inflation) ∧
      (retirementStep p i s).1.collegePrice = s.collegePrice * (1 + p.inflation) ∧
      (retirementStep p i s).1.wage = s.wage) := by
  refine ⟨⟨?_, ?_, ?_, ?_, ?_⟩, ⟨?_, ?_, ?_, ?_, ?_⟩⟩ <;>
    simp only [workingStep, retirementStep, calculate_state_tax] <;> ring

/- C3 helpers: ages along a run. -/

theorem workingStep_age (p : Params) (i : ℤ) (s : SimState) :
    ((workingStep p i s).2).age = i := rfl

theorem retirementStep_age (p : Params) (i : ℤ) (s : SimState) :
    ((retirementStep p i s).2).age = i := rfl

theorem calcWorkingStep_age (p : ScriptParams) (i : ℤ) (s : CalcState) :
    ((calcWorkingStep p i s).2).age = i := rfl

theorem calcRetirementStep_age (p : ScriptParams) (i : ℤ) (s : CalcState) :
    ((calcRetirementStep p i s).2).age = i := rfl

theorem runSteps_intRange_age {σ ρ : Type} (step : ℤ → σ → σ × ρ) (f : ρ → ℤ)
    (hstep : ∀ i s, f ((step i s).2) = i) (a b : ℤ) (s : σ) :
    ∀ (k : ℕ) (h : k < ((runSteps step (intRange a b) s).2).length),
      f (((runSteps step (intRange a b) s).2).get ⟨k, h⟩) = a + k := by
  intro k h
  have h2 : k < (intRange a b).length := by
    rw [← runSteps_length step (intRange a b) s]; exact h
  rw [runSteps_get step f hstep (intRange a b) s k h h2, intRange_get]

theorem get_age_append {ρ : Type} (f : ρ → ℤ) (L1 L2 : List ρ) (a b : ℤ)
    (h1 : ∀ (k : ℕ) (h : k < L1.length), f (L1.get ⟨k, h⟩) = a + k)
    (h2 : ∀ (k : ℕ) (h : k < L2.length), f (L2.get ⟨k, h⟩) = b + k)
    (hb : b = a + L1.length) :
    ∀ (k : ℕ) (h : k < (L1 ++ L2).length), f ((L1 ++ L2).get ⟨k, h⟩) = a + k := by
  intro k h
  by_cases hk : k < L1.length
  · rw [List.get_eq_getElem, List.getElem_append_left hk]
    simpa [List.get_eq_getElem] using h1 k hk
  · push_neg at hk
    have h3 : k - L1.length < L2.length := by
      rw [List.length_append] at h; omega
    rw [List.get_eq_getElem, List.getElem_append_right hk]
    have h4 := h2 (k - L1.length) h3
    rw [List.get_eq_getElem] at h4
    rw [h4, hb]
    omega

/-- C3, amended: the simulator's ledger has exactly
`deathAge - startWorkingAge + 1` rows with row `k` at age
`startWorkingAge + k` and no age recorded twice; the calculator script's
ledger has exactly `deathAge - startWorkingAge` rows (ages
`startWorkingAge` through `deathAge - 1`), its retirement loop stopping one
year short of the death age. -/
theorem c3_amended_row_counts :
    (∀ p : Params, p.startWorkingAge ≤ p.targetRetirementAge →
      p.targetRetirementAge ≤ p.deathAge →
      (simLedger p).length = (p.deathAge - p.startWorkingAge + 1).toNat ∧
      (∀ (k : ℕ) (h : k < (simLedger p).length),
        ((simLedger p).get ⟨k, h⟩).age = p.startWorkingAge + k) ∧
      (∀ (k1 k2 : ℕ) (h1 : k1 < (simLedger p).length) (h2 : k2 < (simLedger p).length),
        ((simLedger p).get ⟨k1, h1⟩).age = ((simLedger p).get ⟨k2, h2⟩).age → k1 = k2)) ∧
    (∀ q : ScriptParams, q.startWorkingAge ≤ q.retirementAge →
      q.retirementAge ≤ q.deathAge →
      (calcLifetime q).length = (q.deathAge - q.startWorkingAge).toNat ∧
      (∀ (k : ℕ) (h : k < (calcLifetime q).length),
        ((calcLifetime q).get ⟨k, h⟩).age = q.startWorkingAge + k)) := by
  constructor
  · intro p h1 h2
    have hlen1 : ((runSteps (workingStep p)
        (intRange p.startWorkingAge p.targetRetirementAge) (initState p)).2).length =
        (p.targetRetirementAge - p.startWorkingAge).toNat := by
      rw [runSteps_length, intRange_length]
    have hlen2 : ((runSteps (retirementStep p)
        (intRange p.targetRetirementAge (p.deathAge + 1))
        (runSteps (workingStep p)
          (intRange p.startWorkingAge p.targetRetirementAge) (initState p)).1).2).length =
        (p.deathAge + 1 - p.targetRetirementAge).toNat := by
      rw [runSteps_length, intRange_length]
    have hlen : (simLedger p).length = (p.deathAge - p.startWorkingAge + 1).toNat := by
      show ((runSteps (workingStep p)
          (intRange p.startWorkingAge p.targetRetirementAge) (initState p)).2 ++
        (runSteps (retirementStep p)
          (intRange p.targetRetirementAge (p.deathAge + 1))
          (runSteps (workingStep p)
            (intRange p.startWorkingAge p.targetRetirementAge) (initState p)).1).2).length = _
      rw [List.length_append, hlen1, hlen2]; omega
    have hage : ∀ (k : ℕ) (h : k < (simLedger p).length),
        ((simLedger p).get ⟨k, h⟩).age = p.startWorkingAge + k := by
      exact get_age_append LedgerRow.age _ _
        p.startWorkingAge p.targetRetirementAge
        (runSteps_intRange_age (workingStep p) LedgerRow.age (workingStep_age p)
          p.startWorkingAge p.targetRetirementAge (initState p))
        (runSteps_intRange_age (retirementStep p) LedgerRow.age (retirementStep_age p)
          p.targetRetirementAge (p.deathAge + 1) _)
        (by rw [hlen1]; omega)
    refine ⟨hlen, hage, ?_⟩
    intro k1 k2 hk1 hk2 heq
    rw [hage k1 hk1, hage k2 hk2] at heq
    omega
  · intro q h1 h2
    have hlen1 : ((runSteps (calcWorkingStep q)
        (intRange q.startWorkingAge q.retirementAge)
        (⟨q.totalWealth, q.costOfLiving, q.wage⟩ : CalcState)).2).length =
        (q.retirementAge - q.startWorkingAge).toNat := by
      rw [runSteps_length, intRange_length]
    have hlen2 : ((runSteps (calcRetirementStep q)
        (intRange q.retirementAge q.deathAge)
        (runSteps (calcWorkingStep q)
          (intRange q.startWorkingAge q.retirementAge)
          (⟨q.totalWealth, q.costOfLiving, q.wage⟩ : CalcState)).1).2).length =
        (q.deathAge - q.retirementAge).toNat := by
      rw [runSteps_length, intRange_length]
    have hlen : (calcLifetime q).length = (q.deathAge - q.startWorkingAge).toNat := by
      show ((runSteps (calcWorkingStep q)
          (intRange q.startWorkingAge q.retirementAge)
          (⟨q.totalWealth, q.costOfLiving, q.wage⟩ : CalcState)).2 ++
        (runSteps (calcRetirementStep q)
          (intRange q.retirementAge q.deathAge)
          (runSteps (calcWorkingStep q)
            (intRange q.startWorkingAge q.retirementAge)
            (⟨q.totalWealth, q.costOfLiving, q.wage⟩ : CalcState)).1).2).length = _
      rw [List.length_append, hlen1, hlen2]; omega
    refine ⟨hlen, ?_⟩
    exact get_age_append CalcRow.age _ _
      q.startWorkingAge q.retirementAge
      (runSteps_intRange_age (calcWorkingStep q) CalcRow.age (calcWorkingStep_age q)
        q.startWorkingAge q.retirementAge ⟨q.totalWealth, q.costOfLiving, q.wage⟩)
      (runSteps_intRange_age (calcRetirementStep q) CalcRow.age (calcRetirementStep_age q)
        q.retirementAge q.deathAge _)
      (by rw [hlen1]; omega)

/- C9 helpers: the shape of working-phase and retirement-phase rows. -/

theorem workingStep_shape (p : Params) (i : ℤ) (s : SimState) :
    ((workingStep p i s).2).wage.isSome = true ∧
    ((workingStep p i s).2).withdrawlPost = none ∧
    ((workingStep p i s).2).surplus = none ∧
    ((workingStep p i s).2).surplusPresent = none ∧
    ((workingStep p i s).2).theoreticalWithdrawlPost.isSome = true ∧
    ((workingStep p i s).2).theoreticalSurplus.isSome = true ∧
    ((workingStep p i s).2).theoreticalSurplusPresent.isSome = true := by
  simp [workingStep]

theorem retirementStep_shape (p : Params) (i : ℤ) (s : SimState) :
    ((retirementStep p i s).2).wage = none ∧
    ((retirementStep p i s).2).withdrawlPost.isSome = true ∧
    ((retirementStep p i s).2).surplus.isSome = true ∧
    ((retirementStep p i s).2).surplusPresent.isSome = true ∧
    ((retirementStep p i s).2).theoreticalWithdrawlPost = none ∧
    ((retirementStep p i s).2).theoreticalSurplus = none ∧
    ((retirementStep p i s).2).theoreticalSurplusPresent = none := by
  simp [retirementStep]

/-- C9: in every simulator ledger row, the wage is non-null exactly in rows
with age below the target retirement age; the actual withdrawal/surplus
fields are null in working-phase rows and non-null in decumulation-phase
rows; the theoretical withdrawal/surplus fields are non-null in every
working-phase row and null in every decumulation-phase row. -/
theorem c9_phase_field_nullness (p : Params) (r : LedgerRow) (hr : r ∈ simLedger p) :
    (r.age < p.targetRetirementAge →
      r.wage.isSome = true ∧ r.withdrawlPost = none ∧ r.surplus = none ∧
      r.surplusPresent = none ∧ r.theoreticalWithdrawlPost.isSome = true ∧
      r.theoreticalSurplus.isSome = true ∧ r.theoreticalSurplusPresent.isSome = true) ∧
    (p.targetRetirementAge ≤ r.age →
      r.wage = none ∧ r.withdrawlPost.isSome = true ∧ r.surplus.isSome = true ∧
      r.surplusPresent.isSome = true ∧ r.theoreticalWithdrawlPost = none ∧
      r.theoreticalSurplus = none ∧ r.theoreticalSurplusPresent = none) := by
  have hr2 : r ∈ (runSteps (workingStep p)
      (intRange p.startWorkingAge p.targetRetirementAge) (initState p)).2 ++
    (runSteps (retirementStep p)
      (intRange p.targetRetirementAge (p.deathAge + 1))
      (runSteps (workingStep p)
        (intRange p.startWorkingAge p.targetRetirementAge) (initState p)).1).2 := hr
  rcases List.mem_append.mp hr2 with h | h
  · obtain ⟨i, hi, s2, rfl⟩ := runSteps_mem _ _ _ _ h
    have hi2 := mem_intRange hi
    constructor
    · intro _
      exact workingStep_shape p i s2
    · intro hge
      rw [workingStep_age] at hge
      omega
  · obtain ⟨i, hi, s2, rfl⟩ := runSteps_mem _ _ _ _ h
    have hi2 := mem_intRange hi
    constructor
    · intro hlt
      rw [retirementStep_age] at hlt
      omega
    · intro _
      exact retirementStep_shape p i s2

/-- Minimal concrete simulator run (wealth 100, cost of living 10, all rates
and the wage zero, no events; work age 22, retirement at 23, death at 23)
used by several witnesses. -/
def tinyParams : Params :=
  ⟨100, 0, 10, 0, 0, 0, 0, 22, 23, 0, 23, 0, 0, []⟩

/-- The age-22 working row of `simLedger tinyParams`. -/
def tinyRow : LedgerRow :=
  ⟨22, 100, some 0, none, 10, 0, none, none, some 0, some (-10), some (-10)⟩

/-- Witness for C9 at a concrete run and row. -/
theorem c9_witness :
    (tinyRow ∈ simLedger tinyParams) ∧
    ((tinyRow.age < tinyParams.targetRetirementAge →
      tinyRow.wage.isSome = true ∧ tinyRow.withdrawlPost = none ∧ tinyRow.surplus = none ∧
      tinyRow.surplusPresent = none ∧ tinyRow.theoreticalWithdrawlPost.isSome = true ∧
      tinyRow.theoreticalSurplus.isSome = true ∧
      tinyRow.theoreticalSurplusPresent.isSome = true) ∧
    (tinyParams.targetRetirementAge ≤ tinyRow.age →
      tinyRow.wage = none ∧ tinyRow.withdrawlPost.isSome = true ∧
      tinyRow.surplus.isSome = true ∧ tinyRow.surplusPresent.isSome = true ∧
      tinyRow.theoreticalWithdrawlPost = none ∧ tinyRow.theoreticalSurplus = none ∧
      tinyRow.theoreticalSurplusPresent = none)) :=
  ⟨by with_unfolding_all decide, c9_phase_field_nullness tinyParams tinyRow (by with_unfolding_all decide)⟩

/-- The module-level constants of retirement_calculator.py
(`total_wealth = -30000`, ..., `start_working_age = 23`,
`retirement_age = 49`, `death_age = 100`). -/
def scriptConstants : ScriptParams :=
  ⟨-30000, 0.09, 40000, 0.03, 93000, 0.027, 0.04, 23, 49, 100⟩

/-- A tiny calculator-script run used as a second concrete input. -/
def c3ScriptInput : ScriptParams :=
  ⟨0, 0, 0, 0, 0, 0, 0, 22, 23, 24⟩

/-- Counterexample to C3 as stated: the calculator script variant satisfies
`startWorkingAge <= retirementAge <= deathAge` but its ledger has
`deathAge - startWorkingAge` rows, not `deathAge - startWorkingAge + 1`:
the actual script constants give 77 rows, not 78, and the tiny run gives
2 rows, not 3. -/
theorem c3_counterexample_calculator_rows :
    ((23:ℤ) ≤ 49 ∧ (49:ℤ) ≤ 100 ∧
      (calcLifetime scriptConstants).length = 77 ∧
      ((77:ℕ) ≠ ((100:ℤ) - 23 + 1).toNat)) ∧
    ((22:ℤ) ≤ 23 ∧ (23:ℤ) ≤ 24 ∧
      (calcLifetime c3ScriptInput).length = 2 ∧
      ((2:ℕ) ≠ ((24:ℤ) - 22 + 1).toNat)) := by
  constructor
  · exact ⟨by decide, by decide, by with_unfolding_all decide, by decide⟩
  · exact ⟨by decide, by decide, by with_unfolding_all decide, by decide⟩

/-- Witness for the amended C3 at concrete runs. -/
theorem c3_witness :
    (((22:ℤ) ≤ 23 ∧ (23:ℤ) ≤ 23) ∧
      ((simLedger tinyParams).length = ((23:ℤ) - 22 + 1).toNat ∧
      (∀ (k : ℕ) (h : k < (simLedger tinyParams).length),
        ((simLedger tinyParams).get ⟨k, h⟩).age = 22 + k) ∧
      (∀ (k1 k2 : ℕ) (h1 : k1 < (simLedger tinyParams).length)
          (h2 : k2 < (simLedger tinyParams).length),
        ((simLedger tinyParams).get ⟨k1, h1⟩).age =
          ((simLedger tinyParams).get ⟨k2, h2⟩).age → k1 = k2))) ∧
    (((22:ℤ) ≤ 23 ∧ (23:ℤ) ≤ 24) ∧
      ((calcLifetime c3ScriptInput).length = ((24:ℤ) - 22).toNat ∧
      (∀ (k : ℕ) (h : k < (calcLifetime c3ScriptInput).length),
        ((calcLifetime c3ScriptInput).get ⟨k, h⟩).age = 22 + k))) :=
  ⟨⟨⟨by decide, by decide⟩,
     c3_amended_row_counts.1 tinyParams (by decide) (by decide)⟩,
   ⟨⟨by decide, by decide⟩,
     c3_amended_row_counts.2 c3ScriptInput (by decide) (by decide)⟩⟩

/- Evaluation helpers for concrete runs of the retirement-age search. -/

theorem runSteps_one {σ ρ : Type} (step : ℤ → σ → σ × ρ) (i : ℤ) (s : σ) :
    runSteps step [i] s = ((step i s).1, [(step i s).2]) := rfl

theorem runSteps_two {σ ρ : Type} (step : ℤ → σ → σ × ρ) (i j : ℤ) (s : σ) :
    runSteps step [i, j] s =
      ((step j (step i s).1).1, [(step i s).2, (step j (step i s).1).2]) := rfl

/-- A concrete run on which the search reaches a Retirable-Sustainable
verdict while the base-ledger crossing mask and the validation-ledger
crossing mask differ: work from 22, target retirement 23, floor
`work_till_at_least = 24`, death at 24, starting wealth 3500, wage 3000,
cost of living 300, inflation 30%, zero return and raise, withdrawal 10%. -/
def c2Input : Params :=
  { startingWealth := 3500, rateOfReturn := 0, costOfLiving := 300,
    inflation := 3/10, wage := 3000, yearlyRaise := 0, withdrawlRate := 1/10,
    startWorkingAge := 22, targetRetirementAge := 23, workTillAtLeast := 24,
    deathAge := 24, childCosts := 0, collegePrice := 0, events := [] }

/-- The validation re-run parameters the search builds for `c2Input`
(`target_retirement_age = best_age = 24`). -/
def c2Val : Params := { c2Input with targetRetirementAge := 24 }

def c2s0 : SimState := ⟨3500, 300, 0, 0, 3000, 22, []⟩

def c2s1 : SimState := ⟨5600, 390, 0, 0, 3000, 23, []⟩

def c2s2 : SimState := ⟨5040, 507, 0, 0, 3000, 24, []⟩

def c2s3 : SimState := ⟨4536, 6591/10, 0, 0, 3000, 25, []⟩

def c2sv2 : SimState := ⟨7610, 507, 0, 0, 3000, 24, []⟩

def c2sv3 : SimState := ⟨6849, 6591/10, 0, 0, 3000, 25, []⟩

def c2b0 : LedgerRow := ⟨22, 3500, some 3000, none, 300, 0, none, none, some 315, some 15, some 15⟩

def c2b1 : LedgerRow := ⟨23, 5600, none, some 504, 390, 0, some 114, some (1140/13), none, none, none⟩

def c2b2 : LedgerRow := ⟨24, 5040, none, some (2268/5), 507, 0, some (-267/5), some (-5340/169), none, none, none⟩

def c2v1 : LedgerRow := ⟨23, 5600, some 3000, none, 390, 0, none, none, some 504, some 114, some (1140/13)⟩

def c2v2 : LedgerRow := ⟨24, 7610, none, some (6849/10), 507, 0, some (1779/10), some (17790/169), none, none, none⟩

theorem c2base0 : workingStep c2Input 22 c2s0 = (c2s1, c2b0) := by
  simp [workingStep, c2Input, c2s0, c2s1, c2b0, eventsAfterUpdate, wealthAfterFlows,
    totalEventsNetFlow, calculate_federal_tax, calculate_longterm_cap_gains_tax,
    calculate_state_tax, taxFromBrackets, bracketTerm, adjBrackets, scaleBracket,
    fedBrackets, ltBrackets, min_def]
  norm_num

theorem c2base1 : retirementStep c2Input 23 c2s1 = (c2s2, c2b1) := by
  simp [retirementStep, c2Input, c2s1, c2s2, c2b1, eventsAfterUpdate, wealthAfterFlows,
    totalEventsNetFlow, calculate_federal_tax, calculate_longterm_cap_gains_tax,
    calculate_state_tax, taxFromBrackets, bracketTerm, adjBrackets, scaleBracket,
    fedBrackets, ltBrackets, min_def]
  norm_num

theorem c2base2 : retirementStep c2Input 24 c2s2 = (c2s3, c2b2) := by
  simp [retirementStep, c2Input, c2s2, c2s3, c2b2, eventsAfterUpdate, wealthAfterFlows,
    totalEventsNetFlow, calculate_federal_tax, calculate_longterm_cap_gains_tax,
    calculate_state_tax, taxFromBrackets, bracketTerm, adjBrackets, scaleBracket,
    fedBrackets, ltBrackets, min_def]
  norm_num

theorem c2val0 : workingStep c2Val 22 c2s0 = (c2s1, c2b0) := by
  simp [workingStep, c2Val, c2Input, c2s0, c2s1, c2b0, eventsAfterUpdate, wealthAfterFlows,
    totalEventsNetFlow, calculate_federal_tax, calculate_longterm_cap_gains_tax,
    calculate_state_tax, taxFromBrackets, bracketTerm, adjBrackets, scaleBracket,
    fedBrackets, ltBrackets, min_def]
  norm_num

theorem c2val1 : workingStep c2Val 23 c2s1 = (c2sv2, c2v1) := by
  simp [workingStep, c2Val, c2Input, c2s1, c2sv2, c2v1, eventsAfterUpdate, wealthAfterFlows,
    totalEventsNetFlow, calculate_federal_tax, calculate_longterm_cap_gains_tax,
    calculate_state_tax, taxFromBrackets, bracketTerm, adjBrackets, scaleBracket,
    fedBrackets, ltBrackets, min_def]
  norm_num

theorem c2val2 : retirementStep c2Val 24 c2sv2 = (c2sv3, c2v2) := by
  simp [retirementStep, c2Val, c2Input, c2sv2, c2sv3, c2v2, eventsAfterUpdate, wealthAfterFlows,
    totalEventsNetFlow, calculate_federal_tax, calculate_longterm_cap_gains_tax,
    calculate_state_tax, taxFromBrackets, bracketTerm, adjBrackets, scaleBracket,
    fedBrackets, ltBrackets, min_def]
  norm_num

theorem c2base_ledger : simLedger c2Input = [c2b0, c2b1, c2b2] := by
  have e1 : intRange c2Input.startWorkingAge c2Input.targetRetirementAge = [22] := by decide
  have e2 : intRange c2Input.targetRetirementAge (c2Input.deathAge + 1) = [23, 24] := by decide
  have e3 : initState c2Input = c2s0 := rfl
  simp only [simLedger, run_simulation, e1, e2, e3, runSteps_one, runSteps_two,
    c2base0, c2base1, c2base2]
  rfl

theorem c2val_ledger : simLedger c2Val = [c2b0, c2v1, c2v2] := by
  have e1 : intRange c2Val.startWorkingAge c2Val.targetRetirementAge = [22, 23] := by decide
  have e2 : intRange c2Val.targetRetirementAge (c2Val.deathAge + 1) = [24] := by decide
  have e3 : initState c2Val = c2s0 := rfl
  simp only [simLedger, run_simulation, e1, e2, e3, runSteps_one, runSteps_two,
    c2val0, c2val1, c2val2]
  rfl

theorem c2_crossings_base : [c2b0, c2b1, c2b2].map crossingB = [true, true, false] := by
  simp [crossingB, optGtB, c2b0, c2b1, c2b2]
  norm_num

theorem c2_crossings_val : [c2b0, c2v1, c2v2].map crossingB = [true, true, true] := by
  simp [crossingB, optGtB, c2b0, c2v1, c2v2]
  norm_num

theorem c2_find : ([c2b0, c2b1, c2b2].find? crossingB) = some c2b0 := by
  have h : crossingB c2b0 = true := by simp [crossingB, optGtB, c2b0]; norm_num
  simp [List.find?, h]

theorem c2_searchFinish :
    searchFinish c2Input [true, true, false] 24 = Verdict.sustainable 24 3500 5600 2100 true := by
  have hvp : ({ c2Input with targetRetirementAge := 24 } : Params) = c2Val := rfl
  have m1 : maskSelect ([c2b0, c2v1, c2v2].map crossingB) [c2b0, c2v1, c2v2] =
      [c2b0, c2v1, c2v2] := by
    rw [c2_crossings_val]; rfl
  have m2 : maskSelect [true, true, false] [c2b0, c2v1, c2v2] = [c2b0, c2v1] := rfl
  have r1 : round2 (3500:ℚ) = 3500 := by
    simp [round2, roundHalfEven]
    norm_num
  have r2 : round2 (5600:ℚ) = 5600 := by
    simp [round2, roundHalfEven]
    norm_num
  have r3 : round2 (2100:ℚ) = 2100 := by
    simp [round2, roundHalfEven]
    norm_num
  simp only [searchFinish, hvp, c2val_ledger, m1, m2]
  norm_num [r1, r2, r3, c2v2, c2b0, c2v1, c2Input]

/-- On `c2Input` the search reports Retirable-Sustainable at best age 24 with
`startWealth = 3500` and `endWealth = 5600` (taken from the validation ledger
through the *base* crossing mask). -/
theorem c2_verdict :
    get_earliest_retirement c2Input = Verdict.sustainable 24 3500 5600 2100 true := by
  have hbest : bestAgeFrom c2Input c2b0 = 24 := by decide
  simp only [get_earliest_retirement, c2base_ledger, c2_find, c2_crossings_base, hbest]
  exact c2_searchFinish

/-- Counterexample to C2 as stated: on `c2Input` the verdict is
Retirable-Sustainable with `endWealth = 5600`, yet the last row of the
validation re-run's ledger satisfying the crossing condition evaluated on the
validation ledger itself has wealth 7610. (The code takes the start/end
wealth rows through the base run's mask `vec`, not `new_vec`.) -/
theorem c2_counterexample :
    get_earliest_retirement c2Input = Verdict.sustainable 24 3500 5600 2100 true ∧
    ((maskSelect ((simLedger c2Val).map crossingB) (simLedger c2Val)).getLast?).map
      LedgerRow.totalWealth = some 7610 ∧
    ((7610:ℚ) ≠ 5600) := by
  refine ⟨c2_verdict, ?_, by norm_num⟩
  rw [c2val_ledger, c2_crossings_val]
  rfl

theorem searchFinish_ne_unreachable (p : Params) (vec : List Bool) (best : ℤ) :
    searchFinish p vec best ≠ Verdict.unreachable := by
  simp only [searchFinish]
  split
  · split
    · simp
    · split
      · split <;> simp
      · simp
  · simp

theorem get_earliest_eq_none (p : Params)
    (h : (simLedger p).find? crossingB = none) :
    get_earliest_retirement p = Verdict.unreachable := by
  unfold get_earliest_retirement
  rw [h]

theorem get_earliest_eq_some (p : Params) (fr : LedgerRow)
    (h : (simLedger p).find? crossingB = some fr) :
    get_earliest_retirement p =
      searchFinish p ((simLedger p).map crossingB) (bestAgeFrom p fr) := by
  unfold get_earliest_retirement
  rw [h]

theorem searchFinish_sustainable_inv (p : Params) (vec : List Bool) (best a : ℤ)
    (s e d : ℚ) (g : Bool)
    (h : searchFinish p vec best = Verdict.sustainable a s e d g) :
    best = a ∧
    ∃ fr2 lr2,
      (maskSelect vec (simLedger { p with targetRetirementAge := best })).head? = some fr2 ∧
      (maskSelect vec (simLedger { p with targetRetirementAge := best })).getLast? = some lr2 ∧
      s = round2 fr2.totalWealth ∧ e = round2 lr2.totalWealth := by
  simp only [searchFinish] at h
  split at h
  · split at h
    · exact absurd h (by simp)
    · split at h
      · split at h
        · exact absurd h (by simp)
        · rename_i fr2 lr2 hhead hlast hno
          rw [Verdict.sustainable.injEq] at h
          obtain ⟨h1, h2, h3, h4, h5⟩ := h
          exact ⟨h1, fr2, lr2, hhead, hlast, h2.symm, h3.symm⟩
      · exact absurd h (by simp)
  · exact absurd h (by simp)

/-- C2, amended: whenever the search returns Retirable-Sustainable at best
age `a`, `startWealth` equals the wealth (rounded half-even to two decimals)
of the validation ledger's row at the position of the *first* row satisfying
the crossing condition evaluated on the *base* ledger, and `endWealth` that
of the row at the position of the *last* such base-ledger crossing row. -/
theorem c2_amended_wealths_from_base_mask :
    ∀ (p : Params) (a : ℤ) (s e d : ℚ) (g : Bool),
      get_earliest_retirement p = Verdict.sustainable a s e d g →
      ∃ fr2 lr2,
        (maskSelect ((simLedger p).map crossingB)
          (simLedger { p with targetRetirementAge := a })).head? = some fr2 ∧
        (maskSelect ((simLedger p).map crossingB)
          (simLedger { p with targetRetirementAge := a })).getLast? = some lr2 ∧
        s = round2 fr2.totalWealth ∧ e = round2 lr2.totalWealth := by
  intro p a s e d g h
  cases hf : (simLedger p).find? crossingB with
  | none =>
    rw [get_earliest_eq_none p hf] at h
    cases h
  | some fr =>
    rw [get_earliest_eq_some p fr hf] at h
    obtain ⟨h1, fr2, lr2, hhead, hlast, hs, he⟩ :=
      searchFinish_sustainable_inv p _ _ a s e d g h
    rw [h1] at hhead hlast
    exact ⟨fr2, lr2, hhead, hlast, hs, he⟩

/-- Witness for the amended C2 at the concrete sustainable run `c2Input`. -/
theorem c2_amended_witness :
    (get_earliest_retirement c2Input = Verdict.sustainable 24 3500 5600 2100 true) ∧
    (∃ fr2 lr2,
      (maskSelect ((simLedger c2Input).map crossingB)
        (simLedger { c2Input with targetRetirementAge := 24 })).head? = some fr2 ∧
      (maskSelect ((simLedger c2Input).map crossingB)
        (simLedger { c2Input with targetRetirementAge := 24 })).getLast? = some lr2 ∧
      (3500:ℚ) = round2 fr2.totalWealth ∧ (5600:ℚ) = round2 lr2.totalWealth) :=
  ⟨c2_verdict,
   c2_amended_wealths_from_base_mask c2Input 24 3500 5600 2100 true c2_verdict⟩

/-- C6: the search returns the Unreachable verdict exactly when no row of the
base ledger has its actual or theoretical post-tax withdrawal strictly above
that row's cost of living. -/
theorem c6_unreachable_iff_no_crossing (p : Params) :
    get_earliest_retirement p = Verdict.unreachable ↔
      ∀ r ∈ simLedger p, crossingB r = false := by
  constructor
  · intro h r hr
    cases hf : (simLedger p).find? crossingB with
    | none =>
      have h2 := List.find?_eq_none.mp hf r hr
      simpa using h2
    | some fr =>
      rw [get_earliest_eq_some p fr hf] at h
      exact absurd h (searchFinish_ne_unreachable p _ _)
  · intro hall
    apply get_earliest_eq_none
    apply List.find?_eq_none.mpr
    intro x hx
    simp [hall x hx]

/-- Witness for C6: the tiny run never satisfies the crossing condition, and
the search indeed reports Unreachable on it. -/
theorem c6_witness :
    get_earliest_retirement tinyParams = Verdict.unreachable :=
  (c6_unreachable_iff_no_crossing tinyParams).mpr (by with_unfolding_all decide)

/- C4: the bracket-table partition invariant. A bracket `(lower, upper)` is
read as the half-open range `lower <= x < upper` (the unbounded last bracket
as `lower <= x`), the only reading under which consecutive table entries
sharing an endpoint, as the federal table's do, are disjoint. -/

/-- Membership of an amount in a bracket's half-open range. -/
def bracketContainsB (b : TaxBracket ℚ) (x : ℚ) : Bool :=
  decide (b.lower ≤ x) && (match b.upper with
    | some u => decide (x < u)
    | none => true)

/-- A table forms a chain from `lo`: the first lower bound is `lo`, each
bracket's upper bound is finite, above its lower bound and is where the rest
of the chain starts, and the last bracket is unbounded. -/
def chainTableB (lo : ℚ) : List (TaxBracket ℚ) → Bool
  | [] => false
  | [b] => decide (b.lower = lo) && decide (b.upper = none)
  | b :: rest =>
      decide (b.lower = lo) && (match b.upper with
        | some u => decide (lo < u) && chainTableB u rest
        | none => false)

/-- Counterexample to C4 as stated: the amount `39375.5` is non-negative but
lies in none of the long-term capital-gains brackets — the table
`{(0,39375), (39376,434550), (434551,inf)}` leaves gaps, so it does not
partition the non-negative line (under any reading of the endpoints, since
`39375.5` is strictly between the first upper and the second lower bound). -/
theorem c4_counterexample_longterm_gap :
    (0:ℚ) ≤ 78751/2 ∧ ∀ b ∈ ltBrackets, bracketContainsB b (78751/2) = false := by
  constructor
  · norm_num
  · intro b hb
    simp only [ltBrackets, List.mem_cons, List.mem_singleton] at hb
    rcases hb with rfl | rfl | rfl | h
    · simp [bracketContainsB]; norm_num
    · simp [bracketContainsB]; norm_num
    · simp [bracketContainsB]; norm_num
    · simp at h

theorem chainTableB_fed : chainTableB 0 fedBrackets = true := by
  simp only [fedBrackets, chainTableB]
  norm_num

theorem chain_lower_ge (brs : List (TaxBracket ℚ)) :
    ∀ lo : ℚ, chainTableB lo brs = true → ∀ b ∈ brs, lo ≤ b.lower := by
  induction brs with
  | nil => intro lo h; simp [chainTableB] at h
  | cons b rest ih =>
    intro lo h b2 hb2
    cases rest with
    | nil =>
      simp only [chainTableB, Bool.and_eq_true, decide_eq_true_eq] at h
      simp only [List.mem_singleton] at hb2
      subst hb2
      exact le_of_eq h.1.symm
    | cons r rs =>
      simp only [chainTableB, Bool.and_eq_true, decide_eq_true_eq] at h
      obtain ⟨hlo, hrest⟩ := h
      rcases hu : b.upper with _ | u
      · rw [hu] at hrest; simp at hrest
      · rw [hu] at hrest
        simp only [Bool.and_eq_true, decide_eq_true_eq] at hrest
        obtain ⟨hltu, hchain⟩ := hrest
        rcases List.mem_cons.mp hb2 with rfl | hmem
        · exact le_of_eq hlo.symm
        · exact le_trans (le_of_lt hltu) (ih u hchain b2 hmem)

theorem chain_partition (brs : List (TaxBracket ℚ)) :
    ∀ lo : ℚ, chainTableB lo brs = true →
      ∀ x : ℚ, lo ≤ x → ∃! b, b ∈ brs ∧ bracketContainsB b x = true := by
  induction brs with
  | nil => intro lo h; simp [chainTableB] at h
  | cons b rest ih =>
    intro lo h x hx
    cases rest with
    | nil =>
      simp only [chainTableB, Bool.and_eq_true, decide_eq_true_eq] at h
      obtain ⟨hlo, hup⟩ := h
      refine ⟨b, ⟨List.mem_singleton_self b, ?_⟩, ?_⟩
      · simp [bracketContainsB, hup, hlo, hx]
      · rintro b2 ⟨hb2, _⟩
        simpa using hb2
    | cons r rs =>
      simp only [chainTableB, Bool.and_eq_true, decide_eq_true_eq] at h
      obtain ⟨hlo, hrest⟩ := h
      rcases hu : b.upper with _ | u
      · rw [hu] at hrest; simp at hrest
      · rw [hu] at hrest
        simp only [Bool.and_eq_true, decide_eq_true_eq] at hrest
        obtain ⟨hltu, hchain⟩ := hrest
        by_cases hxu : x < u
        · refine ⟨b, ⟨List.mem_cons_self b _, ?_⟩, ?_⟩
          · simp [bracketContainsB, hu, hlo, hx, hxu]
          · rintro b2 ⟨hb2, hcont2⟩
            rcases List.mem_cons.mp hb2 with rfl | hmem
            · rfl
            · exfalso
              have hge := chain_lower_ge (r :: rs) u hchain b2 hmem
              simp only [bracketContainsB, Bool.and_eq_true, decide_eq_true_eq] at hcont2
              have h2 := hcont2.1
              linarith
        · push_neg at hxu
          obtain ⟨b2, ⟨hmem2, hcont2⟩, huniq2⟩ := ih u hchain x hxu
          refine ⟨b2, ⟨List.mem_cons_of_mem b hmem2, hcont2⟩, ?_⟩
          rintro b3 ⟨hb3, hcont3⟩
          rcases List.mem_cons.mp hb3 with rfl | hmem3
          · exfalso
            simp only [bracketContainsB, hu, Bool.and_eq_true, decide_eq_true_eq] at hcont3
            have h2 := hcont3.2
            linarith
          · exact huniq2 b3 ⟨hmem3, hcont3⟩

theorem contains_scale (c : ℚ) (hc : 0 < c) (b : TaxBracket ℚ) (x : ℚ) :
    bracketContainsB (scaleBracket c b) x = bracketContainsB b (x / c) := by
  rcases b with ⟨lower, upper, rate⟩
  cases upper with
  | none =>
    simp [bracketContainsB, scaleBracket, le_div_iff₀ hc]
  | some u =>
    simp [bracketContainsB, scaleBracket, le_div_iff₀ hc, div_lt_iff₀ hc]

theorem partition_scale (brs : List (TaxBracket ℚ)) (c : ℚ) (hc : 0 < c)
    (h : ∀ x : ℚ, 0 ≤ x → ∃! b, b ∈ brs ∧ bracketContainsB b x = true) :
    ∀ x : ℚ, 0 ≤ x → ∃! b, b ∈ adjBrackets brs c ∧ bracketContainsB b x = true := by
  intro x hx
  obtain ⟨b, ⟨hmem, hcont⟩, huniq⟩ := h (x / c) (div_nonneg hx hc.le)
  refine ⟨scaleBracket c b, ⟨List.mem_map_of_mem _ hmem, ?_⟩, ?_⟩
  · rw [contains_scale c hc]; exact hcont
  · rintro b2 ⟨hmem2, hcont2⟩
    obtain ⟨b0, hb0, rfl⟩ := List.mem_map.mp hmem2
    rw [contains_scale c hc] at hcont2
    rw [huniq b0 ⟨hb0, hcont2⟩]

theorem lt_disjoint_base (x : ℚ) (b1 b2 : TaxBracket ℚ)
    (h1 : b1 ∈ ltBrackets) (h2 : b2 ∈ ltBrackets)
    (hc1 : bracketContainsB b1 x = true) (hc2 : bracketContainsB b2 x = true) :
    b1 = b2 := by
  simp only [ltBrackets, List.mem_cons, List.mem_singleton] at h1 h2
  rcases h1 with rfl | rfl | rfl | h1
  all_goals try (rcases h2 with rfl | rfl | rfl | h2)
  all_goals try rfl
  all_goals try (simp at h1)
  all_goals try (simp at h2)
  all_goals (simp only [bracketContainsB, Bool.and_eq_true, decide_eq_true_eq] at hc1 hc2)
  all_goals (exfalso; linarith [hc1.1, hc1.2, hc2.1, hc2.2])

/-- C4, amended: the federal ordinary-income table — inflation-scaled by any
positive factor or not (factor 1) — partitions the non-negative line into
half-open ranges without gaps or overlaps, with the last bracket unbounded;
the long-term capital-gains table is an ordered set of disjoint ascending
ranges with an unbounded last bracket, but it does *not* cover all of the
non-negative line: it leaves the gaps `[39375, 39376)` and
`[434550, 434551)` (scaled accordingly), as the counterexample shows. -/
theorem c4_amended_partition :
    (∀ c : ℚ, 0 < c → ∀ x : ℚ, 0 ≤ x →
      ∃! b, b ∈ adjBrackets fedBrackets c ∧ bracketContainsB b x = true) ∧
    (∀ c : ℚ, 0 < c → ∀ (x : ℚ) (b1 b2 : TaxBracket ℚ),
      b1 ∈ adjBrackets ltBrackets c → b2 ∈ adjBrackets ltBrackets c →
      bracketContainsB b1 x = true → bracketContainsB b2 x = true → b1 = b2) ∧
    (∀ c : ℚ, 0 < c →
      List.Chain' (fun b1 b2 => ∃ u, b1.upper = some u ∧ u < b2.lower)
        (adjBrackets ltBrackets c)) ∧
    (∀ c : ℚ, ((adjBrackets ltBrackets c).getLast?).map TaxBracket.upper = some none ∧
      ((adjBrackets fedBrackets c).getLast?).map TaxBracket.upper = some none) := by
  refine ⟨?_, ?_, ?_, ?_⟩
  · intro c hc
    exact partition_scale fedBrackets c hc (chain_partition fedBrackets 0 chainTableB_fed)
  · intro c hc x b1 b2 h1 h2 hc1 hc2
    obtain ⟨a1, ha1, rfl⟩ := List.mem_map.mp h1
    obtain ⟨a2, ha2, rfl⟩ := List.mem_map.mp h2
    rw [contains_scale c hc] at hc1 hc2
    rw [lt_disjoint_base (x / c) a1 a2 ha1 ha2 hc1 hc2]
  · intro c hc
    simp only [adjBrackets, ltBrackets, scaleBracket, List.map_cons, List.map_nil,
      List.chain'_cons, List.chain'_singleton, and_true]
    constructor
    · exact ⟨39375 * c, rfl, by
        have h2 := mul_lt_mul_of_pos_right (show (39375:ℚ) < 39376 by norm_num) hc
        simpa using h2⟩
    · exact ⟨434550 * c, rfl, by
        have h2 := mul_lt_mul_of_pos_right (show (434550:ℚ) < 434551 by norm_num) hc
        simpa using h2⟩
  · intro c
    constructor <;> rfl

/-- Witness for the amended C4 at scale factor 1 and amount 5. -/
theorem c4_witness :
    ((0:ℚ) < 1 ∧ (0:ℚ) ≤ 5 ∧
      ∃! b, b ∈ adjBrackets fedBrackets 1 ∧ bracketContainsB b 5 = true) ∧
    ((0:ℚ) < 1 ∧
      List.Chain' (fun b1 b2 => ∃ u, b1.upper = some u ∧ u < b2.lower)
        (adjBrackets ltBrackets 1)) :=
  ⟨⟨one_pos, by norm_num, c4_amended_partition.1 1 one_pos 5 (by norm_num)⟩,
   ⟨one_pos, c4_amended_partition.2.2.1 1 one_pos⟩⟩

/- C7: real-valued continuity and monotonicity of the bracket evaluator. The
evaluator `taxFromBrackets` is generic in the ordered field, so the very
definition embedded from the source is instantiated at `ℝ` on the real
reading of the rational tables. -/

/-- The real reading of a rational bracket. -/
noncomputable def castBracket (b : TaxBracket ℚ) : TaxBracket ℝ :=
  ⟨(b.lower : ℝ), b.upper.map (fun (u : ℚ) => (u : ℝ)), (b.rate : ℝ)⟩


theorem bracketTerm_eq_clamp (b : TaxBracket ℝ)
    (hl : ∀ u, b.upper = some u → b.lower ≤ u) :
    (fun a => bracketTerm a b) = (fun a =>
      b.rate * ((match b.upper with
        | some u => min (max a b.lower) u
        | none => max a b.lower) - b.lower)) := by
  funext a
  rcases b with ⟨l, u, r⟩
  cases u with
  | none =>
    simp only [bracketTerm]
    by_cases h : l < a
    · simp [h, max_eq_left h.le]
    · push_neg at h
      simp [not_lt.mpr h, max_eq_right h]
  | some u2 =>
    have hlu : l ≤ u2 := hl u2 rfl
    simp only [bracketTerm]
    by_cases h : l < a
    · simp [h, max_eq_left h.le]
    · push_neg at h
      simp [not_lt.mpr h, max_eq_right h, min_eq_left hlu]

theorem bracketTerm_continuous (b : TaxBracket ℝ)
    (hl : ∀ u, b.upper = some u → b.lower ≤ u) :
    Continuous (fun a => bracketTerm a b) := by
  rw [bracketTerm_eq_clamp b hl]
  rcases b with ⟨l, u, r⟩
  cases u with
  | none =>
    exact continuous_const.mul ((continuous_id.max continuous_const).sub continuous_const)
  | some u2 =>
    exact continuous_const.mul
      (((continuous_id.max continuous_const).min continuous_const).sub continuous_const)

theorem bracketTerm_monotone (b : TaxBracket ℝ) (hr : 0 ≤ b.rate)
    (hl : ∀ u, b.upper = some u → b.lower ≤ u) :
    Monotone (fun a => bracketTerm a b) := by
  rw [bracketTerm_eq_clamp b hl]
  rcases b with ⟨l, u, r⟩
  cases u with
  | none =>
    intro a1 a2 h12
    dsimp only
    have hg : max a1 l ≤ max a2 l := max_le_max h12 le_rfl
    exact mul_le_mul_of_nonneg_left (by linarith) hr
  | some u2 =>
    intro a1 a2 h12
    dsimp only
    have hg : min (max a1 l) u2 ≤ min (max a2 l) u2 :=
      min_le_min (max_le_max h12 le_rfl) le_rfl
    exact mul_le_mul_of_nonneg_left (by linarith) hr

theorem taxR_continuous (brs : List (TaxBracket ℝ))
    (h : ∀ b ∈ brs, 0 ≤ b.rate ∧ ∀ u, b.upper = some u → b.lower ≤ u) :
    Continuous (fun a => taxFromBrackets brs a) := by
  induction brs with
  | nil =>
    have e : (fun a : ℝ => taxFromBrackets ([] : List (TaxBracket ℝ)) a) = fun _ => 0 := by
      funext a; simp [taxFromBrackets]
    rw [e]; exact continuous_const
  | cons b bs ih =>
    have e : (fun a : ℝ => taxFromBrackets (b :: bs) a) =
        fun a => bracketTerm a b + taxFromBrackets bs a := by
      funext a; exact taxFromBrackets_cons b bs a
    rw [e]
    exact (bracketTerm_continuous b (h b (List.mem_cons_self b bs)).2).add
      (ih (fun b2 hb2 => h b2 (List.mem_cons_of_mem b hb2)))

theorem taxR_monotone (brs : List (TaxBracket ℝ))
    (h : ∀ b ∈ brs, 0 ≤ b.rate ∧ ∀ u, b.upper = some u → b.lower ≤ u) :
    Monotone (fun a => taxFromBrackets brs a) := by
  induction brs with
  | nil =>
    intro a1 a2 _
    simp [taxFromBrackets]
  | cons b bs ih =>
    have e : (fun a : ℝ => taxFromBrackets (b :: bs) a) =
        fun a => bracketTerm a b + taxFromBrackets bs a := by
      funext a; exact taxFromBrackets_cons b bs a
    rw [e]
    exact (bracketTerm_monotone b (h b (List.mem_cons_self b bs)).1
        (h b (List.mem_cons_self b bs)).2).add
      (ih (fun b2 hb2 => h b2 (List.mem_cons_of_mem b hb2)))

theorem taxR_boundary (brs : List (TaxBracket ℝ))
    (h : ∀ b ∈ brs, 0 ≤ b.rate ∧ ∀ u, b.upper = some u → b.lower ≤ u)
    (r u : ℝ) :
    Filter.Tendsto (fun ε => taxFromBrackets brs (u - ε) + r * ε)
      (nhdsWithin 0 (Set.Ioi 0)) (nhds (taxFromBrackets brs u)) := by
  have h1 : Filter.Tendsto (fun ε : ℝ => u - ε) (nhds 0) (nhds u) := by
    simpa using (continuous_const.sub continuous_id).tendsto (0 : ℝ)
  have h2 : Filter.Tendsto (fun ε => taxFromBrackets brs (u - ε)) (nhds 0)
      (nhds (taxFromBrackets brs u)) :=
    ((taxR_continuous brs h).tendsto u).comp h1
  have h3 : Filter.Tendsto (fun ε : ℝ => r * ε) (nhds 0) (nhds 0) := by
    simpa using (continuous_const.mul continuous_id).tendsto (0 : ℝ)
  have h4 := h2.add h3
  rw [add_zero] at h4
  exact h4.mono_left nhdsWithin_le_nhds

theorem ltBrackets_valid :
    ∀ b ∈ ltBrackets, 0 ≤ b.rate ∧ ∀ u, b.upper = some u → b.lower ≤ u := by
  intro b hb
  simp only [ltBrackets, List.mem_cons, List.mem_singleton] at hb
  rcases hb with rfl | rfl | rfl | h
  case inr.inr.inr => exact absurd h (List.not_mem_nil b)
  · refine ⟨by norm_num, ?_⟩
    intro u hu
    simp only [Option.some.injEq] at hu
    rw [← hu]
    norm_num
  · refine ⟨by norm_num, ?_⟩
    intro u hu
    simp only [Option.some.injEq] at hu
    rw [← hu]
    norm_num
  · exact ⟨by norm_num, by intro u hu; cases hu⟩

theorem fedBrackets_valid :
    ∀ b ∈ fedBrackets, 0 ≤ b.rate ∧ ∀ u, b.upper = some u → b.lower ≤ u := by
  intro b hb
  simp only [fedBrackets, List.mem_cons, List.mem_singleton] at hb
  rcases hb with rfl | rfl | rfl | rfl | rfl | rfl | rfl | h
  case inr.inr.inr.inr.inr.inr.inr => exact absurd h (List.not_mem_nil b)
  all_goals
    refine ⟨by norm_num, ?_⟩
  all_goals
    intro u hu
  all_goals first
    | (simp only [Option.some.injEq] at hu
       rw [← hu]
       norm_num)
    | cases hu

theorem cast_adj_valid (brs : List (TaxBracket ℚ))
    (hb : ∀ b ∈ brs, 0 ≤ b.rate ∧ ∀ u, b.upper = some u → b.lower ≤ u)
    (c : ℚ) (hc : 0 ≤ c) :
    ∀ b ∈ (adjBrackets brs c).map castBracket,
      0 ≤ b.rate ∧ ∀ u, b.upper = some u → b.lower ≤ u := by
  intro b hb2
  obtain ⟨b1, hb1, rfl⟩ := List.mem_map.mp hb2
  simp only [adjBrackets, List.mem_map] at hb1
  obtain ⟨b0, hb0, rfl⟩ := hb1
  obtain ⟨hr, hu⟩ := hb b0 hb0
  constructor
  · simpa [castBracket, scaleBracket] using hr
  · intro u hu2
    rcases b0 with ⟨l, uo, r⟩
    cases uo with
    | none => simp [castBracket, scaleBracket] at hu2
    | some u0 =>
      simp only [castBracket, scaleBracket, Option.map_some', Option.some.injEq] at hu2 ⊢
      rw [← hu2]
      have hlu : l ≤ u0 := hu u0 rfl
      have : l * c ≤ u0 * c := mul_le_mul_of_nonneg_right hlu hc
      exact_mod_cast this

/-- C7: for every (non-negatively scaled) long-term-gains and federal bracket
table, the tax evaluator is a continuous and non-decreasing function of the
real amount taxed, and at every finite bracket boundary `u` with bracket rate
`r` the limit of `tax(u - eps) + r*eps` as `eps` tends to `0` from above is
exactly `tax(u)` — no jump beyond the smoothly applied marginal rate. -/
theorem c7_tax_continuous_monotone :
    ∀ c : ℚ, 0 ≤ c →
      (Continuous (fun a : ℝ =>
          taxFromBrackets ((adjBrackets ltBrackets c).map castBracket) a) ∧
        Monotone (fun a : ℝ =>
          taxFromBrackets ((adjBrackets ltBrackets c).map castBracket) a) ∧
        (∀ b ∈ (adjBrackets ltBrackets c).map castBracket, ∀ u : ℝ, b.upper = some u →
          Filter.Tendsto
            (fun ε => taxFromBrackets ((adjBrackets ltBrackets c).map castBracket) (u - ε) +
              b.rate * ε)
            (nhdsWithin 0 (Set.Ioi 0))
            (nhds (taxFromBrackets ((adjBrackets ltBrackets c).map castBracket) u)))) ∧
      (Continuous (fun a : ℝ =>
          taxFromBrackets ((adjBrackets fedBrackets c).map castBracket) a) ∧
        Monotone (fun a : ℝ =>
          taxFromBrackets ((adjBrackets fedBrackets c).map castBracket) a) ∧
        (∀ b ∈ (adjBrackets fedBrackets c).map castBracket, ∀ u : ℝ, b.upper = some u →
          Filter.Tendsto
            (fun ε => taxFromBrackets ((adjBrackets fedBrackets c).map castBracket) (u - ε) +
              b.rate * ε)
            (nhdsWithin 0 (Set.Ioi 0))
            (nhds (taxFromBrackets ((adjBrackets fedBrackets c).map castBracket) u)))) := by
  intro c hc
  have hl := cast_adj_valid ltBrackets ltBrackets_valid c hc
  have hf := cast_adj_valid fedBrackets fedBrackets_valid c hc
  exact ⟨⟨taxR_continuous _ hl, taxR_monotone _ hl,
      fun b hb u hu => taxR_boundary _ hl b.rate u⟩,
    ⟨taxR_continuous _ hf, taxR_monotone _ hf,
      fun b hb u hu => taxR_boundary _ hf b.rate u⟩⟩

/-- Witness for C7 at scale factor 1. -/
theorem c7_witness :
    (0:ℚ) ≤ 1 ∧
    Continuous (fun a : ℝ =>
      taxFromBrackets ((adjBrackets fedBrackets 1).map castBracket) a) :=
  ⟨by norm_num, (c7_tax_continuous_monotone 1 (by norm_num)).2.1⟩

/-- C10: in the object-store model of the constructor's deep copies, two
simulators built from the same parameter record produce identical ledgers,
and running the first never changes the second's event objects or its
result: the second simulator's ledger is the same whether or not the first
ran, because each `run_simulation` writes only through its own object's
event-list reference. -/
theorem c10_determinism_and_isolation (st0 : EventStore) (p : Params) :
    (runObj (runObj (newSimulator (newSimulator st0 p).1 p).1
        (newSimulator st0 p).2).1
      (newSimulator (newSimulator st0 p).1 p).2).2 =
    (runObj (newSimulator (newSimulator st0 p).1 p).1
      (newSimulator (newSimulator st0 p).1 p).2).2 ∧
    (runObj (newSimulator (newSimulator st0 p).1 p).1 (newSimulator st0 p).2).2 =
    (runObj (newSimulator (newSimulator st0 p).1 p).1
      (newSimulator (newSimulator st0 p).1 p).2).2 := by
  have hA : ((st0 ++ [p.events, p.events]) ++ [p.events, p.events])[st0.length]? =
      some p.events := by
    have h1 : st0.length < (st0 ++ [p.events, p.events]).length := by simp
    rw [List.getElem?_append, if_pos h1,
      List.getElem?_append_right (le_refl st0.length)]
    simp
  have hB : ((st0 ++ [p.events, p.events]) ++ [p.events, p.events])[(st0 ++ [p.events, p.events]).length]? =
      some p.events := by
    rw [List.getElem?_append_right (le_refl (st0 ++ [p.events, p.events]).length)]
    simp
  have hne : st0.length ≠ (st0 ++ [p.events, p.events]).length := by simp
  constructor
  · simp only [runObj, newSimulator, List.getD, List.get?_eq_getElem?]
    rw [List.getElem?_set_ne hne, hB]
  · simp only [runObj, newSimulator, List.getD, List.get?_eq_getElem?]
    rw [hA, hB]
